import Mathlib

/-!
Verification of the AI Krishi Rakshak pest-advisory pipeline.

This file is a shallow embedding of `src/ai_krishi_rakshak.py`:
* `detect_pests` — severity estimation from pixel color statistics;
* `recommend_natural_treatment` — keyword dispatch into a localized
  treatment catalog with English fallback;
* `guide_farmer` — guidance formatting;
* `track_effectiveness` — before/after effectiveness metrics;
* `krishi_rakshak` — the orchestrator.

Modelling conventions:
* A decoded image (the result of `Image.open(...).convert("RGB")` followed by
  `np.array`) is a flat list of RGB pixels; `total_pixels = shape[0]*shape[1]`
  is the list length.  The image-decoding collaborator is modelled as an
  `Except String PixelGrid` input: `Except.error` stands for an exception
  raised by `Image.open`/`convert`, which the source catches and turns into
  the `"Could not open image: ..."` error dictionary.
* Python floats are modelled as `ℚ`; the float `nan` that arises from the
  division `(brown + dark) / total_pixels` when `total_pixels = 0` is
  modelled by `Option ℚ` with `none` for `nan` (every `<` comparison against
  `nan` is false in Python, see `optLt`; `max(0, nan)` evaluates to `0`, see
  `pyMax0`).
* `round(x, n)` is modelled by `roundTo2`/`roundTo3` using mathematical
  round-to-nearest; no claim below depends on tie-breaking.
* The random draw `random.uniform(0.5, 0.9)` feeding the confidence value is
  modelled as an explicit parameter `conf` (the entropy collaborator).
* Python `str.lower` is modelled on the ASCII range (`lowerChar`); every
  keyword and classifier label in the source is ASCII.
* The uncaught `KeyError` raised when `track_effectiveness` reads
  `after["severity"]` from an error dictionary is modelled by
  `RunResult.crash` (see `track_effectiveness_dyn` and `krishi_rakshak`).
-/

set_option maxRecDepth 8000

/-- One RGB pixel of the decoded image (unsigned 8-bit channels in the
source; the channel bound is irrelevant to every property proved here). -/
structure Pixel where
  r : ℕ
  g : ℕ
  b : ℕ
deriving DecidableEq

/-- A decoded 3-channel image, flattened: `height*width` pixels. -/
abbrev PixelGrid := List Pixel

/-- The `pixels` sub-dictionary of the report:
`{"total": ..., "brown": ..., "dark": ...}`. -/
structure PixelCounts where
  total : ℕ
  brown : ℕ
  dark : ℕ
deriving DecidableEq

/-- The diagnosis dictionary returned by `detect_pests` on success. -/
structure SeverityReport where
  pest : String
  life_stage : String
  confidence : ℚ
  severity : Option ℚ
  pixels : PixelCounts
deriving DecidableEq

/-- Python `round(q, 2)` on exact rationals. -/
def roundTo2 (q : ℚ) : ℚ := ((round (q * 100) : ℤ) : ℚ) / 100

/-- Python `round(q, 3)` on exact rationals. -/
def roundTo3 (q : ℚ) : ℚ := ((round (q * 1000) : ℤ) : ℚ) / 1000

/-- A Python `<` comparison whose left operand may be `nan` (`none`):
`nan < c` is `False`. -/
def optLt (x : Option ℚ) (c : ℚ) : Bool :=
  match x with
  | none => false
  | some v => decide (v < c)

/-- Source: `brown = np.sum((img[:,:,0] > 100) & (img[:,:,1] < 80) & (img[:,:,2] < 60))`. -/
def brownCount (g : PixelGrid) : ℕ :=
  g.countP (fun p => decide (100 < p.r) && decide (p.g < 80) && decide (p.b < 60))

/-- Source: `dark = np.sum(np.mean(img, axis=2) < 50)`; for naturals,
`(r+g+b)/3 < 50` is exactly `r+g+b < 150`. -/
def darkCount (g : PixelGrid) : ℕ :=
  g.countP (fun p => decide (p.r + p.g + p.b < 150))

/-- Source: `damage_ratio = (brown + dark) / total_pixels`; `none` is the `nan`
produced by NumPy when `total_pixels = 0` (0/0 emits a warning, not an
exception, and yields `nan`). -/
def damageRatio (g : PixelGrid) : Option ℚ :=
  if g.length = 0 then none
  else some (((brownCount g : ℚ) + (darkCount g : ℚ)) / (g.length : ℚ))

/-- The threshold cascade of `detect_pests`, returning the `pest` and
`life_stage` strings.  With a `nan` ratio both comparisons are false and
control reaches the `else` branch, exactly as in Python. -/
def classify (dr : Option ℚ) : String × String :=
  if optLt dr (1/20) then ("No significant pest", "N/A")
  else if optLt dr (3/20) then ("Early leaf miner or minor chewing pest", "early")
  else ("Severe leaf miner / caterpillar infestation", "advanced")

/-- The report built by `detect_pests` after a successful decode;
`conf` is the raw `random.uniform(0.5, 0.9)` draw. -/
def estimateReport (conf : ℚ) (g : PixelGrid) : SeverityReport :=
  { pest := (classify (damageRatio g)).1
    life_stage := (classify (damageRatio g)).2
    confidence := roundTo2 conf
    severity := (damageRatio g).map roundTo3
    pixels := { total := g.length, brown := brownCount g, dark := darkCount g } }

/-- Source `detect_pests(image_path)`: a decode exception is caught and returned as
the `{"error": "Could not open image: ..."}` dictionary; any decoded grid
produces a report. -/
def detect_pests (conf : ℚ) (image : Except String PixelGrid) :
    Except String SeverityReport :=
  match image with
  | Except.error e => Except.error ("Could not open image: " ++ e)
  | Except.ok g => Except.ok (estimateReport conf g)

/-- ASCII model of `str.lower` on a single character. -/
def lowerChar (c : Char) : Char :=
  if 65 ≤ c.toNat ∧ c.toNat ≤ 90 then Char.ofNat (c.toNat + 32) else c

/-- ASCII model of `str.lower`. -/
def lowerStr (s : String) : String := String.mk (s.data.map lowerChar)

/-- Scan checking `needle.isPrefixOf` at every position, backing `strIn`. -/
def charsIn (n : List Char) : List Char → Bool
  | [] => n.isEmpty
  | c :: cs => n.isPrefixOf (c :: cs) || charsIn n cs

/-- Python's substring test `needle in hay`. -/
def strIn (needle hay : String) : Bool := charsIn needle.data hay.data

/-- One localized treatment record (the four text fields of the catalog). -/
structure TreatmentRecord where
  title : String
  details : String
  type : String
  notes : String
deriving DecidableEq

/-- Record `treatments["leaf miner"]["en"]`. -/
def lmEn : TreatmentRecord :=
  { title := "Neem Oil Spray"
    details := "Mix 50 ml neem oil + 5 g soap in 1L water; spray every 7 days."
    type := "bio-pesticide"
    notes := "Targets larvae without harming beneficial insects." }

/-- Record `treatments["leaf miner"]["hi"]`. -/
def lmHi : TreatmentRecord :=
  { title := "नीम तेल छिड़काव"
    details := "50 मिली नीम तेल + 5 ग्राम साबुन को 1 लीटर पानी में मिलाएं; हर 7 दिन में छिड़काव करें।"
    type := "जैव कीटनाशक"
    notes := "लार्वा को निशाना बनाता है और लाभदायक कीड़ों को नुकसान नहीं पहुंचाता।" }

/-- Record `treatments["leaf miner"]["kn"]`. -/
def lmKn : TreatmentRecord :=
  { title := "ನೀಮ್ ಎಣ್ಣೆ ಸಿಂಪಡಣೆ"
    details := "50 ಮಿ.ಲೀ. ನೀಮ್ ಎಣ್ಣೆ + 5 ಗ್ರಾಂ ಸಾಬೂನು 1 ಲೀಟರ್ ನೀರಿನಲ್ಲಿ ಮಿಶ್ರಣಿಸಿ; ಪ್ರತಿ 7 ದಿನಗಳಿಗೊಮ್ಮೆ ಸಿಂಪಡಿಸಿ."
    type := "ಜೈವ ಕೀಟನಾಶಕ"
    notes := "ಉಪಯುಕ್ತ ಕೀಟಗಳಿಗೆ ಹಾನಿ ಮಾಡದೆ ಲಾರ್ವಾಗಳನ್ನು ಗುರಿಯಾಗಿಸುತ್ತದೆ." }

/-- Record `treatments["caterpillar"]["en"]`. -/
def catEn : TreatmentRecord :=
  { title := "Bt Spray (Bacillus thuringiensis)"
    details := "Dilute 2g Bt powder per liter; apply in evening hours."
    type := "microbial pesticide"
    notes := "Highly specific and environmentally safe." }

/-- Record `treatments["caterpillar"]["hi"]`. -/
def catHi : TreatmentRecord :=
  { title := "बीटी छिड़काव (बैसिलस थ्यूरिनजेंसिस)"
    details := "प्रति लीटर 2 ग्राम बीटी पाउडर घोलें; शाम के समय छिड़काव करें।"
    type := "सूक्ष्मजीव कीटनाशक"
    notes := "अत्यधिक विशिष्ट और पर्यावरण के लिए सुरक्षित।" }

/-- Record `treatments["caterpillar"]["kn"]`. -/
def catKn : TreatmentRecord :=
  { title := "ಬಿ.ಟಿ. ಸಿಂಪಡಣೆ (Bacillus thuringiensis)"
    details := "ಪ್ರತಿ ಲೀಟರ್‌ಗೆ 2 ಗ್ರಾಂ ಬಿ.ಟಿ. ಪುಡಿ ಕರಗಿಸಿ; ಸಂಜೆ ಸಮಯದಲ್ಲಿ ಅನ್ವಯಿಸಿ."
    type := "ಸೂಕ್ಷ್ಮಾಣು ಕೀಟನಾಶಕ"
    notes := "ಬಹಳ ನಿಖರವಾದ ಮತ್ತು ಪರಿಸರಕ್ಕೆ ಸುರಕ್ಷಿತ." }

/-- Record `treatments["default"]["en"]`. -/
def defEn : TreatmentRecord :=
  { title := "Garlic-Chili Spray"
    details := "Crush 50g garlic + 20g green chili in 1L water, filter & spray."
    type := "natural repellent"
    notes := "Effective against early-stage chewing pests." }

/-- Record `treatments["default"]["hi"]`. -/
def defHi : TreatmentRecord :=
  { title := "लहसुन-मिर्च छिड़काव"
    details := "50 ग्राम लहसुन और 20 ग्राम हरी मिर्च को 1 लीटर पानी में पीसकर छानें और छिड़कें।"
    type := "प्राकृतिक कीट प्रतिरोधक"
    notes := "प्रारंभिक चरण के कीटों के खिलाफ प्रभावी।" }

/-- Record `treatments["default"]["kn"]`. -/
def defKn : TreatmentRecord :=
  { title := "ಬೆಳ್ಳುಳ್ಳಿ-ಮೆಣಸಿನ ಸಿಂಪಡಣೆ"
    details := "50 ಗ್ರಾಂ ಬೆಳ್ಳುಳ್ಳಿ ಮತ್ತು 20 ಗ್ರಾಂ ಹಸಿಮೆಣಸನ್ನು 1 ಲೀಟರ್ ನೀರಿನಲ್ಲಿ ರುಬ್ಬಿ ಶೋಧಿಸಿ ಸಿಂಪಡಿಸಿ."
    type := "ಸಹಜ ಕೀಟ ಪ್ರತಿರೋಧಕ"
    notes := "ಆರಂಭಿಕ ಹಂತದ ಕೀಟಗಳ ವಿರುದ್ಧ ಪರಿಣಾಮಕಾರಿ." }

/-- Record `treatments["leaf miner"]` as an association list in source key order. -/
def leafMinerDict : List (String × TreatmentRecord) :=
  [("en", lmEn), ("hi", lmHi), ("kn", lmKn)]

/-- Record `treatments["caterpillar"]` as an association list in source key order. -/
def caterpillarDict : List (String × TreatmentRecord) :=
  [("en", catEn), ("hi", catHi), ("kn", catKn)]

/-- Record `treatments["default"]` as an association list in source key order. -/
def defaultDict : List (String × TreatmentRecord) :=
  [("en", defEn), ("hi", defHi), ("kn", defKn)]

/-- Record `treatments["leaf miner"].get(lang, treatments["leaf miner"]["en"])`. -/
def leafTreatment (lang : String) : TreatmentRecord :=
  (leafMinerDict.lookup lang).getD lmEn

/-- Record `treatments["caterpillar"].get(lang, treatments["caterpillar"]["en"])`. -/
def caterpillarTreatment (lang : String) : TreatmentRecord :=
  (caterpillarDict.lookup lang).getD catEn

/-- Record `treatments["default"].get(lang, treatments["default"]["en"])`. -/
def defaultTreatment (lang : String) : TreatmentRecord :=
  (defaultDict.lookup lang).getD defEn

/-- Source `recommend_natural_treatment(pest_name, lang)`. -/
def recommend_natural_treatment (pest_name : String) (lang : String) :
    TreatmentRecord :=
  if strIn "leaf miner" (lowerStr pest_name) then leafTreatment lang
  else if strIn "caterpillar" (lowerStr pest_name) then caterpillarTreatment lang
  else defaultTreatment lang

/-- Case-insensitive substring containment, the matching policy named by the
catalog section of the design document. -/
def containsCI (needle hay : String) : Bool :=
  strIn (lowerStr needle) (lowerStr hay)

/-- Modelled from the spec: the catalog section's matching-policy words —
case-insensitive substring dispatch to the leaf-miner, caterpillar, or
default record.  Used only to compare against `recommend_natural_treatment`. -/
def catalogDispatchSpec (label lang : String) : TreatmentRecord :=
  if containsCI "leaf miner" label then leafTreatment lang
  else if containsCI "caterpillar" label then caterpillarTreatment lang
  else defaultTreatment lang

/-- Source `guide_farmer(treatment)`. -/
def guide_farmer (t : TreatmentRecord) : String :=
  t.title ++ " — " ++ t.details ++ " (Note: " ++ t.notes ++ ")"

/-- The tracking dictionary returned by `track_effectiveness`. -/
structure EffectivenessReport where
  severity_reduction : ℚ
  estimated_yield_change_percent : Option ℚ
deriving DecidableEq

/-- Python subtraction where either operand may be `nan`: `nan` propagates. -/
def optSub (x y : Option ℚ) : Option ℚ :=
  match x, y with
  | some a, some b => some (a - b)
  | _, _ => none

/-- Python `max(0, x)` where `x` may be `nan`: `nan > 0` is false, so the
result is `0`. -/
def pyMax0 (x : Option ℚ) : ℚ :=
  match x with
  | none => 0
  | some v => max 0 v

/-- Source `track_effectiveness(before, after)` on two well-formed reports.
The source's local `reduction = max(0, before["severity"] -
after["severity"])` is inlined; `yield_change = (reduction * 0.8 -
before["severity"] * 0.5) * 100`.  If `before["severity"]` is `nan`,
`yield_change` is `nan` (`none`). -/
def track_effectiveness (before after : SeverityReport) : EffectivenessReport :=
  { severity_reduction := roundTo3 (pyMax0 (optSub before.severity after.severity))
    estimated_yield_change_percent :=
      before.severity.map (fun bs =>
        roundTo2 ((pyMax0 (optSub before.severity after.severity) * (4/5)
          - bs * (1/2)) * 100)) }

/-- Function `track_effectiveness` as called by the orchestrator, on raw
`detect_pests` results.  Reading `["severity"]` from an error dictionary
raises an uncaught `KeyError`, modelled by `none`. -/
def track_effectiveness_dyn (before after : Except String SeverityReport) :
    Option EffectivenessReport :=
  match before, after with
  | Except.ok b, Except.ok a => some (track_effectiveness b a)
  | _, _ => none

/-- The final report dictionary assembled by `krishi_rakshak` (the
source includes `diagnosis`, `treatment`, `guidance` and `tracking`;
`diagnosis_after` is computed but not part of the returned dictionary). -/
structure AgentReport where
  diagnosis : SeverityReport
  treatment : TreatmentRecord
  guidance : String
  tracking : Option EffectivenessReport
deriving DecidableEq

/-- Outcome of one `krishi_rakshak` call: the before-error dictionary, a
report, or an uncaught exception (`crash`). -/
inductive RunResult where
  | errorResult (msg : String)
  | report (r : AgentReport)
  | crash
deriving DecidableEq

/-- Source `krishi_rakshak(image_before, image_after, lang)`.  `confB`/`confA` are
the confidence draws consumed by the two `detect_pests` calls. -/
def krishi_rakshak (confB confA : ℚ) (image_before : Except String PixelGrid)
    (image_after : Option (Except String PixelGrid)) (lang : String) : RunResult :=
  match detect_pests confB image_before with
  | Except.error e => RunResult.errorResult e
  | Except.ok diag =>
    let treatment := recommend_natural_treatment diag.pest lang
    let guide := guide_farmer treatment
    match image_after with
    | none => RunResult.report ⟨diag, treatment, guide, none⟩
    | some ia =>
      match track_effectiveness_dyn (Except.ok diag) (detect_pests confA ia) with
      | none => RunResult.crash
      | some tr => RunResult.report ⟨diag, treatment, guide, some tr⟩

/-- All-white pixel: neither brown nor dark. -/
def whitePixel : Pixel := ⟨255, 255, 255⟩

/-- All-black pixel: dark but not brown. -/
def blackPixel : Pixel := ⟨0, 0, 0⟩

/-- A pixel that is simultaneously brown (r>100, g<80, b<60) and dark
(mean 101/3 < 50): the overlap witness. -/
def brownDarkPixel : Pixel := ⟨101, 0, 0⟩

/-- Grid of 101 pixels of which 5 are dark: damage ratio 5/101 ≈ 0.0495, which
rounds to exactly 0.050 at 3 decimals. -/
def boundaryGrid : PixelGrid :=
  List.replicate 5 blackPixel ++ List.replicate 96 whitePixel

/-- A before-report fixture with severity 0.20. -/
def beforeFixture : SeverityReport :=
  { pest := "Severe leaf miner / caterpillar infestation"
    life_stage := "advanced"
    confidence := 7/10
    severity := some (1/5)
    pixels := { total := 100, brown := 15, dark := 5 } }

/-- An after-report fixture with severity 0.05. -/
def afterFixture : SeverityReport :=
  { pest := "Early leaf miner or minor chewing pest"
    life_stage := "early"
    confidence := 4/5
    severity := some (1/20)
    pixels := { total := 100, brown := 3, dark := 2 } }

/-- Rounding a nonnegative rational to 3 decimals stays nonnegative. -/
theorem roundTo3_nonneg {q : ℚ} (h : 0 ≤ q) : 0 ≤ roundTo3 q := by
  unfold roundTo3
  have h1 : (0:ℤ) ≤ round (q * 1000) := by
    rw [round_eq]
    exact Int.floor_nonneg.mpr (by linarith)
  have h2 : (0:ℚ) ≤ ((round (q * 1000) : ℤ) : ℚ) := by exact_mod_cast h1
  exact div_nonneg h2 (by norm_num)

/-- A rational strictly below 0.05 rounds (3 decimals) to at most 0.05. -/
theorem roundTo3_le_of_lt {r : ℚ} (h : r < 1/20) : roundTo3 r ≤ 1/20 := by
  unfold roundTo3
  have h1 : round (r * 1000) ≤ 50 := by
    rw [round_eq]
    have hlt : (r * 1000 + 1/2 : ℚ) < 51 := by linarith
    have h2 : ⌊(r * 1000 + 1/2 : ℚ)⌋ < 51 := Int.floor_lt.mpr (by exact_mod_cast hlt)
    omega
  have h2 : ((round (r * 1000) : ℤ) : ℚ) ≤ 50 := by exact_mod_cast h1
  rw [div_le_iff₀ (by norm_num : (0:ℚ) < 1000)]
  linarith

/-- Python `max(0, x)` is never negative, `nan` or not. -/
theorem pyMax0_nonneg (x : Option ℚ) : 0 ≤ pyMax0 x := by
  cases x with
  | none => simp [pyMax0]
  | some v => simp [pyMax0]

/-- Classification helper: a numeric ratio below 0.05 lands in the first
branch of the cascade. -/
theorem classify_none {r : ℚ} (h : r < 1/20) :
    classify (some r) = ("No significant pest", "N/A") := by
  unfold classify
  rw [show optLt (some r) (1/20) = true from by
    simp only [optLt, decide_eq_true_eq]
    exact h]
  rfl

/-- Classification helper: a numeric ratio in [0.05, 0.15) lands in the
second branch of the cascade. -/
theorem classify_early {r : ℚ} (h1 : ¬ r < 1/20) (h2 : r < 3/20) :
    classify (some r) = ("Early leaf miner or minor chewing pest", "early") := by
  unfold classify
  rw [show optLt (some r) (1/20) = false from by
    simp only [optLt]
    exact decide_eq_false h1]
  rw [show optLt (some r) (3/20) = true from by
    simp only [optLt, decide_eq_true_eq]
    exact h2]
  rfl

/-- Classification helper: a numeric ratio of at least 0.15 lands in the
last branch of the cascade. -/
theorem classify_severe {r : ℚ} (h1 : ¬ r < 1/20) (h2 : ¬ r < 3/20) :
    classify (some r) = ("Severe leaf miner / caterpillar infestation", "advanced") := by
  unfold classify
  rw [show optLt (some r) (1/20) = false from by
    simp only [optLt]
    exact decide_eq_false h1]
  rw [show optLt (some r) (3/20) = false from by
    simp only [optLt]
    exact decide_eq_false h2]
  rfl

/-- Classification helper: a `nan` ratio fails both comparisons and lands
in the last branch, exactly as in Python. -/
theorem classify_nan :
    classify none = ("Severe leaf miner / caterpillar infestation", "advanced") := rfl

/-- C2: For every pixel grid accepted by the severity estimator (one whose
damage ratio is a number, i.e. at least one pixel), the threshold cascade on
the damage ratio holds: ratio < 0.05 gives pest "No significant pest"
(pestCategory None) with life stage "N/A" (NotApplicable); 0.05 ≤ ratio <
0.15 gives "Early leaf miner or minor chewing pest" (EarlyLeafMiner) with
life stage "early"; ratio ≥ 0.15 gives "Severe leaf miner / caterpillar
infestation" (SevereInfestation) with life stage "advanced". -/
theorem detect_pests_threshold_classification (conf : ℚ) (g : PixelGrid) (r : ℚ)
    (hr : damageRatio g = some r) :
    (r < 1/20 → (estimateReport conf g).pest = "No significant pest" ∧
      (estimateReport conf g).life_stage = "N/A") ∧
    (1/20 ≤ r → r < 3/20 →
      (estimateReport conf g).pest = "Early leaf miner or minor chewing pest" ∧
      (estimateReport conf g).life_stage = "early") ∧
    (3/20 ≤ r →
      (estimateReport conf g).pest = "Severe leaf miner / caterpillar infestation" ∧
      (estimateReport conf g).life_stage = "advanced") := by
  refine ⟨fun h1 => ?_, fun h1 h2 => ?_, fun h1 => ?_⟩
  · constructor <;> simp [estimateReport, hr, classify_none h1]
  · constructor <;> simp [estimateReport, hr, classify_early (not_lt.mpr h1) h2]
  · have hc := classify_severe (not_lt.mpr (le_trans (by norm_num) h1)) (not_lt.mpr h1)
    constructor <;> simp [estimateReport, hr, hc]

/-- C2 witness: the all-white one-pixel grid (ratio 0) classifies as
"No significant pest" and the all-black one-pixel grid (ratio 1) as
"Severe leaf miner / caterpillar infestation". -/
theorem detect_pests_threshold_classification_check :
    (estimateReport (7/10) [whitePixel]).pest = "No significant pest" ∧
    (estimateReport (7/10) [blackPixel]).pest =
      "Severe leaf miner / caterpillar infestation" := by
  have hw : damageRatio [whitePixel] = some 0 := by
    norm_num [damageRatio, brownCount, darkCount, whitePixel,
      List.countP_cons, List.countP_nil]
  have hb : damageRatio [blackPixel] = some 1 := by
    norm_num [damageRatio, brownCount, darkCount, blackPixel,
      List.countP_cons, List.countP_nil]
  constructor
  · exact ((detect_pests_threshold_classification (7/10) [whitePixel] 0 hw).1
      (by norm_num)).1
  · exact ((detect_pests_threshold_classification (7/10) [blackPixel] 1 hb).2.2
      (by norm_num)).1

/-- C3: For every pair of severity reports whose severities are numbers,
`track_effectiveness` returns `severity_reduction =
round3(max(0, before.severity - after.severity))` and
`estimated_yield_change_percent = round2((reduction*0.8 -
before.severity*0.5)*100)`; the reduction is never negative for any pair of
reports whatsoever; and on severities 0.20/0.05 the result is reduction
0.150 and yield change 2.00. -/
theorem track_effectiveness_formula (b a : SeverityReport) (bs as : ℚ)
    (hb : b.severity = some bs) (ha : a.severity = some as) :
    (track_effectiveness b a).severity_reduction = roundTo3 (max 0 (bs - as)) ∧
    (track_effectiveness b a).estimated_yield_change_percent =
      some (roundTo2 ((max 0 (bs - as) * (4/5) - bs * (1/2)) * 100)) ∧
    (∀ x y : SeverityReport, (0:ℚ) ≤ (track_effectiveness x y).severity_reduction) ∧
    (track_effectiveness beforeFixture afterFixture).severity_reduction = 3/20 ∧
    (track_effectiveness beforeFixture afterFixture).estimated_yield_change_percent
      = some 2 := by
  have hmax : max (0:ℚ) (1/5 - 1/20) = 3/20 := by
    rw [max_eq_right (by norm_num)]
    norm_num
  refine ⟨?_, ?_, ?_, ?_, ?_⟩
  · simp [track_effectiveness, hb, ha, optSub, pyMax0]
  · simp [track_effectiveness, hb, ha, optSub, pyMax0]
  · intro x y
    exact roundTo3_nonneg (pyMax0_nonneg _)
  · simp only [track_effectiveness, beforeFixture, afterFixture, optSub, pyMax0, hmax]
    simp only [roundTo3, round_eq]
    norm_num
  · simp only [track_effectiveness, beforeFixture, afterFixture, optSub, pyMax0, hmax,
      Option.map_some]
    simp only [roundTo2, round_eq]
    norm_num

/-- C3 witness: the theorem applied to the concrete 0.20/0.05 fixtures. -/
theorem track_effectiveness_formula_check :
    (track_effectiveness beforeFixture afterFixture).severity_reduction = 3/20 ∧
    (track_effectiveness beforeFixture afterFixture).estimated_yield_change_percent
      = some 2 := by
  have h := track_effectiveness_formula beforeFixture afterFixture (1/5) (1/20)
    rfl rfl
  exact ⟨h.2.2.2.1, h.2.2.2.2⟩

/-- C4 (amended): every report produced by the severity estimator with pest
"No significant pest" (pestCategory None) has life stage "N/A"
(NotApplicable) and a numeric severity at most 0.05 — the 3-decimal
rounding can land exactly on 0.05, so "strictly less than 0.05" fails
(see the counterexample). -/
theorem none_report_invariant (conf : ℚ) (g : PixelGrid)
    (h : (estimateReport conf g).pest = "No significant pest") :
    (estimateReport conf g).life_stage = "N/A" ∧
    ∃ s, (estimateReport conf g).severity = some s ∧ s ≤ 1/20 := by
  cases hdr : damageRatio g with
  | none =>
    exfalso
    have hp : (estimateReport conf g).pest =
        "Severe leaf miner / caterpillar infestation" := by
      simp [estimateReport, hdr, classify_nan]
    rw [hp] at h
    exact absurd h (by decide)
  | some r =>
    by_cases hr : r < 1/20
    · refine ⟨?_, roundTo3 r, ?_, roundTo3_le_of_lt hr⟩
      · simp [estimateReport, hdr, classify_none hr]
      · simp [estimateReport, hdr]
    · exfalso
      by_cases hr2 : r < 3/20
      · have hp : (estimateReport conf g).pest =
            "Early leaf miner or minor chewing pest" := by
          simp [estimateReport, hdr, classify_early hr hr2]
        rw [hp] at h
        exact absurd h (by decide)
      · have hp : (estimateReport conf g).pest =
            "Severe leaf miner / caterpillar infestation" := by
          simp [estimateReport, hdr, classify_severe hr hr2]
        rw [hp] at h
        exact absurd h (by decide)

/-- C4 witness: the all-white one-pixel grid yields pest
"No significant pest", and the theorem gives life stage "N/A" with severity
at most 0.05. -/
theorem none_report_invariant_check :
    (estimateReport (7/10) [whitePixel]).life_stage = "N/A" ∧
    ∃ s, (estimateReport (7/10) [whitePixel]).severity = some s ∧ s ≤ 1/20 := by
  apply none_report_invariant
  have hw : damageRatio [whitePixel] = some 0 := by
    norm_num [damageRatio, brownCount, darkCount, whitePixel,
      List.countP_cons, List.countP_nil]
  simp [estimateReport, hw, classify_none (by norm_num : (0:ℚ) < 1/20)]

/-- C4 counterexample: a 101-pixel grid with 5 dark pixels has damage ratio
5/101 < 0.05, so pest is "No significant pest", yet the stored severity
round(5/101, 3) is exactly 0.050, refuting "severity strictly less than
0.05". -/
theorem none_report_severity_at_bound :
    (estimateReport (7/10) boundaryGrid).pest = "No significant pest" ∧
    (estimateReport (7/10) boundaryGrid).severity = some (1/20) ∧
    ¬ ((1/20 : ℚ) < 1/20) := by
  have hbrown : brownCount boundaryGrid = 0 := by decide
  have hdark : darkCount boundaryGrid = 5 := by decide
  have hlen : boundaryGrid.length = 101 := by decide
  have hdr : damageRatio boundaryGrid = some (5/101) := by
    rw [damageRatio, hlen, hbrown, hdark]
    norm_num
  have hround : roundTo3 (5/101) = 1/20 := by
    rw [roundTo3, round_eq]
    norm_num
  refine ⟨?_, ?_, by norm_num⟩
  · simp [estimateReport, hdr, classify_none (by norm_num : (5:ℚ)/101 < 1/20)]
  · simp [estimateReport, hdr, hround]

/-- C5 (amended): in every report produced by the severity estimator the
pixel counts are non-negative integers with brown ≤ total and dark ≤ total
(hence brown + dark ≤ 2·total); the stronger bound brown + dark ≤ total of
the claim fails because the brown and dark pixel sets can overlap (see the
counterexample). -/
theorem pixel_counts_bounds (conf : ℚ) (g : PixelGrid) :
    (estimateReport conf g).pixels.brown ≤ (estimateReport conf g).pixels.total ∧
    (estimateReport conf g).pixels.dark ≤ (estimateReport conf g).pixels.total ∧
    (estimateReport conf g).pixels.brown + (estimateReport conf g).pixels.dark ≤
      2 * (estimateReport conf g).pixels.total := by
  have hb : brownCount g ≤ g.length := List.countP_le_length _
  have hd : darkCount g ≤ g.length := List.countP_le_length _
  refine ⟨?_, ?_, ?_⟩ <;> simp only [estimateReport] <;> omega

/-- C5 counterexample: the single pixel (101, 0, 0) is counted both as brown
and as dark, so brown + dark = 2 > 1 = total. -/
theorem pixel_counts_overlap_example :
    (estimateReport (7/10) [brownDarkPixel]).pixels.brown = 1 ∧
    (estimateReport (7/10) [brownDarkPixel]).pixels.dark = 1 ∧
    (estimateReport (7/10) [brownDarkPixel]).pixels.total = 1 ∧
    ¬ ((estimateReport (7/10) [brownDarkPixel]).pixels.brown +
        (estimateReport (7/10) [brownDarkPixel]).pixels.dark ≤
        (estimateReport (7/10) [brownDarkPixel]).pixels.total) := by
  refine ⟨?_, ?_, ?_, ?_⟩ <;> simp [estimateReport, brownCount, darkCount,
    brownDarkPixel, List.countP_cons, List.countP_nil]

/-- C6: For every pest label and locale, `recommend_natural_treatment` is
exactly the case-insensitive substring dispatch described by the catalog
section: a label containing "leaf miner" gets the leaf-miner record, else
one containing "caterpillar" gets the caterpillar record, else the default
garlic-chili record; being a total function, the lookup never fails. -/
theorem recommend_is_keyword_dispatch (label lang : String) :
    recommend_natural_treatment label lang = catalogDispatchSpec label lang := by
  unfold recommend_natural_treatment catalogDispatchSpec containsCI
  rw [show lowerStr "leaf miner" = "leaf miner" from by decide,
    show lowerStr "caterpillar" = "caterpillar" from by decide]

/-- C7 (amended): the severity estimator never rejects a decoded grid — no
`ImageFormatError` exists.  Channel count is normalized by the loader's
RGB conversion before estimation, and a zero-pixel grid is not an error:
its `nan` damage ratio silently classifies as severe infestation. -/
theorem estimator_never_rejects_grid (conf : ℚ) (g : PixelGrid) :
    detect_pests conf (Except.ok g) = Except.ok (estimateReport conf g) ∧
    (estimateReport conf ([] : PixelGrid)).pest =
      "Severe leaf miner / caterpillar infestation" ∧
    (estimateReport conf ([] : PixelGrid)).severity = none :=
  ⟨rfl, rfl, rfl⟩

/-- C7 counterexample: on the zero-pixel grid the estimator returns a
success report (severe classification, `nan` severity), not a structured
`ImageFormatError` — refuting "fails ... or has zero pixels". -/
theorem zero_pixel_grid_not_rejected :
    detect_pests (7/10) (Except.ok ([] : PixelGrid)) =
      Except.ok ⟨"Severe leaf miner / caterpillar infestation", "advanced",
        7/10, none, ⟨0, 0, 0⟩⟩ := by
  have hc : roundTo2 (7/10) = 7/10 := by
    simp only [roundTo2, round_eq]
    norm_num
  show Except.ok (estimateReport (7/10) []) = _
  simp [estimateReport, damageRatio, brownCount, darkCount, classify_nan,
    List.countP_nil, hc]

/-- Looking up a key other than "en"/"hi"/"kn" in a three-entry catalog
dictionary finds nothing, so `.get` takes its default. -/
theorem lookup3_unknown {β : Type} (lang : String) (h1 : lang ≠ "en")
    (h2 : lang ≠ "hi") (h3 : lang ≠ "kn") (v1 v2 v3 : β) :
    (([("en", v1), ("hi", v2), ("kn", v3)] : List (String × β)).lookup lang)
      = none := by
  have e1 : (lang == "en") = false := by
    cases hb : lang == "en"
    · rfl
    · exact absurd (eq_of_beq hb) h1
  have e2 : (lang == "hi") = false := by
    cases hb : lang == "hi"
    · rfl
    · exact absurd (eq_of_beq hb) h2
  have e3 : (lang == "kn") = false := by
    cases hb : lang == "kn"
    · rfl
    · exact absurd (eq_of_beq hb) h3
  simp [List.lookup, e1, e2, e3]

/-- Unknown-locale fallback for the leaf-miner dictionary. -/
theorem leafTreatment_unknown (lang : String) (h1 : lang ≠ "en")
    (h2 : lang ≠ "hi") (h3 : lang ≠ "kn") :
    leafTreatment lang = leafTreatment "en" := by
  unfold leafTreatment leafMinerDict
  rw [lookup3_unknown lang h1 h2 h3]
  rfl

/-- Unknown-locale fallback for the caterpillar dictionary. -/
theorem caterpillarTreatment_unknown (lang : String) (h1 : lang ≠ "en")
    (h2 : lang ≠ "hi") (h3 : lang ≠ "kn") :
    caterpillarTreatment lang = caterpillarTreatment "en" := by
  unfold caterpillarTreatment caterpillarDict
  rw [lookup3_unknown lang h1 h2 h3]
  rfl

/-- Unknown-locale fallback for the default dictionary. -/
theorem defaultTreatment_unknown (lang : String) (h1 : lang ≠ "en")
    (h2 : lang ≠ "hi") (h3 : lang ≠ "kn") :
    defaultTreatment lang = defaultTreatment "en" := by
  unfold defaultTreatment defaultDict
  rw [lookup3_unknown lang h1 h2 h3]
  rfl

/-- C8: For every pest label and every locale code outside the catalog
("en"/"hi"/"kn"), treatment lookup returns exactly the record obtained by
requesting "en" explicitly. -/
theorem unknown_locale_falls_back_to_en (label lang : String) (h1 : lang ≠ "en")
    (h2 : lang ≠ "hi") (h3 : lang ≠ "kn") :
    recommend_natural_treatment label lang =
      recommend_natural_treatment label "en" := by
  unfold recommend_natural_treatment
  rw [leafTreatment_unknown lang h1 h2 h3, caterpillarTreatment_unknown lang h1 h2 h3,
    defaultTreatment_unknown lang h1 h2 h3]

/-- C8 witness: the unknown locale "ta" yields the same record as "en". -/
theorem unknown_locale_falls_back_to_en_check :
    recommend_natural_treatment "severe caterpillar attack" "ta" =
      recommend_natural_treatment "severe caterpillar attack" "en" :=
  unknown_locale_falls_back_to_en "severe caterpillar attack" "ta"
    (by decide) (by decide) (by decide)

/-- C9 (amended): for every treatment record the guidance formatter produces
the single fixed sentence `title ++ " — " ++ details ++ " (Note: " ++ notes
++ ")"`; the template is locale-independent (the record fields carry the
localization) and has no "Apply" prefix. -/
theorem guide_farmer_template (t : TreatmentRecord) :
    guide_farmer t =
      t.title ++ " — " ++ t.details ++ " (Note: " ++ t.notes ++ ")" := rfl

/-- C9 counterexample: on the English leaf-miner record the formatter does
not produce the claimed "Apply {title} — {details}. Note: {notes}" sentence;
it produces "{title} — {details} (Note: {notes})". -/
theorem guidance_template_counterexample :
    guide_farmer lmEn =
      "Neem Oil Spray — Mix 50 ml neem oil + 5 g soap in 1L water; spray every 7 days. (Note: Targets larvae without harming beneficial insects.)" ∧
    guide_farmer lmEn ≠
      "Apply Neem Oil Spray — Mix 50 ml neem oil + 5 g soap in 1L water; spray every 7 days.. Note: Targets larvae without harming beneficial insects." := by
  constructor
  · rfl
  · decide

/-- The leaf-miner record differs from the caterpillar record in every
locale (known or fallen back to English). -/
theorem leaf_ne_cat (lang : String) :
    leafTreatment lang ≠ caterpillarTreatment lang := by
  unfold leafTreatment caterpillarTreatment leafMinerDict caterpillarDict
  cases h1 : lang == "en" <;> cases h2 : lang == "hi" <;> cases h3 : lang == "kn" <;>
    simp [List.lookup, h1, h2, h3] <;> decide

/-- C10: for every grid whose damage ratio is at least 0.15, the pest label
is "Severe leaf miner / caterpillar infestation", which contains both the
"leaf miner" and "caterpillar" keywords; the leaf-miner branch is tested
first, so the pipeline recommends the leaf-miner (neem oil) record — never
the caterpillar record — and the end-to-end run reports exactly that
treatment. -/
theorem severe_pipeline_recommends_leaf_miner (confB confA : ℚ) (g : PixelGrid)
    (r : ℚ) (lang : String) (hr : damageRatio g = some r) (h15 : 3/20 ≤ r) :
    strIn "leaf miner" (lowerStr (estimateReport confB g).pest) = true ∧
    strIn "caterpillar" (lowerStr (estimateReport confB g).pest) = true ∧
    recommend_natural_treatment (estimateReport confB g).pest lang
      = leafTreatment lang ∧
    leafTreatment lang ≠ caterpillarTreatment lang ∧
    krishi_rakshak confB confA (Except.ok g) none lang =
      RunResult.report ⟨estimateReport confB g, leafTreatment lang,
        guide_farmer (leafTreatment lang), none⟩ := by
  have hc := classify_severe (not_lt.mpr (le_trans (by norm_num) h15))
    (not_lt.mpr h15)
  have hp : (estimateReport confB g).pest =
      "Severe leaf miner / caterpillar infestation" := by
    simp [estimateReport, hr, hc]
  have hrec : recommend_natural_treatment
      "Severe leaf miner / caterpillar infestation" lang = leafTreatment lang := by
    unfold recommend_natural_treatment
    rw [show strIn "leaf miner"
      (lowerStr "Severe leaf miner / caterpillar infestation") = true from by decide]
    rfl
  refine ⟨?_, ?_, ?_, leaf_ne_cat lang, ?_⟩
  · rw [hp]
    decide
  · rw [hp]
    decide
  · rw [hp, hrec]
  · show RunResult.report ⟨estimateReport confB g,
      recommend_natural_treatment (estimateReport confB g).pest lang,
      guide_farmer (recommend_natural_treatment (estimateReport confB g).pest lang),
      none⟩ = _
    rw [hp, hrec]

/-- C10 witness: the all-black one-pixel grid (ratio 1 ≥ 0.15) gets the
leaf-miner treatment in the Hindi locale, end to end. -/
theorem severe_pipeline_recommends_leaf_miner_check :
    recommend_natural_treatment (estimateReport (7/10) [blackPixel]).pest "hi"
      = leafTreatment "hi" ∧
    krishi_rakshak (7/10) (3/5) (Except.ok [blackPixel]) none "hi" =
      RunResult.report ⟨estimateReport (7/10) [blackPixel], leafTreatment "hi",
        guide_farmer (leafTreatment "hi"), none⟩ := by
  have hb : damageRatio [blackPixel] = some 1 := by
    norm_num [damageRatio, brownCount, darkCount, blackPixel, List.countP_cons,
      List.countP_nil]
  have h := severe_pipeline_recommends_leaf_miner (7/10) (3/5) [blackPixel] 1 "hi"
    hb (by norm_num)
  exact ⟨h.2.2.1, h.2.2.2.2⟩

/-- C1 (amended): whenever the before-image estimation succeeds, an after
path is provided and the after-image estimation fails, the orchestrator
still calls `track_effectiveness` on the error dictionary; the
`after["severity"]` access raises an uncaught `KeyError`, so the call does
not return a report at all — the after-image failure fails the whole call. -/
theorem after_image_error_fails_whole_call (confB confA : ℚ) (g : PixelGrid)
    (e lang : String) :
    krishi_rakshak confB confA (Except.ok g) (some (Except.error e)) lang =
      RunResult.crash := rfl

/-- C1 counterexample: with a good before image and a failing after image
the call crashes instead of returning a report with the tracking section
omitted. -/
theorem after_image_error_crash_example :
    krishi_rakshak (7/10) (3/5) (Except.ok [blackPixel])
      (some (Except.error "file missing")) "en" = RunResult.crash ∧
    ¬ ∃ rep, krishi_rakshak (7/10) (3/5) (Except.ok [blackPixel])
      (some (Except.error "file missing")) "en" = RunResult.report rep := by
  constructor
  · rfl
  · rintro ⟨rep, hrep⟩
    exact RunResult.noConfusion
      ((rfl : krishi_rakshak (7/10) (3/5) (Except.ok [blackPixel])
        (some (Except.error "file missing")) "en" = RunResult.crash).symm.trans hrep)
